import Mathlib

/-!
# Solver task of Range (`Range/src/solver_task.cpp`)

A shallow embedding of `SolverTask`: its constructor, `stop`, `kill` and `run`.

The task talks to collaborators whose code lives in other files (the session,
the settings, the license reader, the model reader and writer, the process).
What they return is an input of the embedding (`Library`, `Session`,
`MainSettings`, `Env`), and every call the task makes on them, every signal it
emits and every line it logs is recorded, in program order, in a trace of
`Event`s.  A C++ exception of type `RError` is a value of `Except RError`, and a
call through a null pointer is a `Fault`.
-/

namespace Range

/-! ## Data model -/

/-- Error value of the library, `RError(type, reference, message)`.  The task only ever reads
the message (`getMessage()`), which is all that is kept here. -/
structure RError where
  message : String
deriving DecidableEq, Repr

/-- Levels of `RLogger` used by the task. -/
inductive LogLevel where
  | info
  | warning
  | error
deriving DecidableEq, Repr

/-- Everything the task does that is visible from outside, in program order. -/
inductive Event where
  /-- Call of `RLogger::info`, `RLogger::warning` or `RLogger::error` with the formatted text. -/
  | log (level : LogLevel) (text : String)
  /-- Call of `RLogger::indent()`. -/
  | indent
  /-- Call of `RLogger::unindent()`. -/
  | unindent
  /-- Call of `Session::storeCurentModelVersion(modelID, label)`. -/
  | storeCurentModelVersion (modelID : Nat) (label : String)
  /-- Statement `emit isBlocking(b)`. -/
  | isBlocking (b : Bool)
  /-- Call of `ModelIO::save(rModel, path, false)`. -/
  | save (path : String)
  /-- Call of `ModelIO::update(rModel, path)`. -/
  | update (path : String)
  /-- Statement `new SolverProcess(this)`. -/
  | newSolverProcess
  /-- Call of `QObject::connect` of the process's standard output to the task. -/
  | connectStandardOutput
  /-- Call of `QObject::connect` of the process's standard error to the task. -/
  | connectStandardError
  /-- Call of `solverProcess->start(program, arguments)`. -/
  | start (program : String) (arguments : List String)
  /-- Call of `solverProcess->waitForFinished(-1)`. -/
  | waitForFinished
  /-- Call of `Session::setModelChanged(modelID)`. -/
  | setModelChanged (modelID : Nat)
  /-- Call of `solverProcess->write(bytes)`. -/
  | write (bytes : String)
  /-- Call of `solverProcess->kill()`. -/
  | kill
deriving DecidableEq, Repr

/-- The getters of `ApplicationSettings` that the task reads. -/
structure ApplicationSettings where
  solverPath : String
  nThreads : Nat
  rangeAccount : String
  rangePassword : String
deriving DecidableEq, Repr

/-- The parts of `Model` that the task reads: its file name and the problem type mask of its
problem task tree. -/
structure Model where
  fileName : String
  problemTypeMask : Nat
deriving DecidableEq, Repr

/-- A license file once read (`RLicense`); the task sees its records only through
`validateRecord(id, account, password)`. -/
structure RLicense where
  validateRecord : String → String → String → Bool

/-- Functions of the libraries that the task calls and whose code is in other files; they are
parameters of the embedding. -/
structure Library where
  /-- Call of `RProblem::getTypes(mask)`; a problem type is its enum value. -/
  getTypes : Nat → List Nat
  /-- Call of `RProblem::getId(type)`. -/
  getId : Nat → String
  /-- Call of `RProblem::getName(type)`. -/
  getName : Nat → String
  /-- Call of `RLicense::read(fileName)`: the license, or the `RError` it throws. -/
  read : String → Except RError RLicense
  /-- Call of `QFileInfo(fileName).absoluteFilePath()`. -/
  absoluteFilePath : String → String
  /-- Call of `Model::buildTmpFileName(format, idString)`. -/
  buildTmpFileName : Model → String → String → String
  /-- Call of `RFileManager::getFileNameWithOutTimeStep(fileName)`. -/
  getFileNameWithOutTimeStep : String → String

/-- The singleton `Session`: the models by identifier. -/
structure Session where
  getModel : Nat → Model

/-- The singleton `MainSettings`. -/
structure MainSettings where
  findModuleLicenseFileName : String
  getApplicationSettings : ApplicationSettings
deriving DecidableEq, Repr

/-- The process object behind `solverProcess`; `started` holds the program and the arguments
given to `start`, once it was called. -/
structure SolverProcess where
  started : Option (String × List String)
deriving DecidableEq, Repr

/-- The fields of `SolverTask`.  `taskID` is the identifier through `toString()`;
`solverProcess` is `none` for the null pointer. -/
structure SolverTask where
  applicationSettings : ApplicationSettings
  modelID : Nat
  taskID : String
  solverExecutable : String
  solverArguments : List String
  modelFileName : String
  logFileName : String
  convergenceFileName : String
  monitoringFileName : String
  solverProcess : Option SolverProcess
deriving DecidableEq, Repr

/-- A call through a null pointer. -/
inductive Fault where
  | nullPointerDereference
deriving DecidableEq, Repr

/-! ## Constructor -/

/-- The loop over `problemTypes` of the constructor: one warning for each type whose record
does not validate. -/
def validateRecords (lib : Library) (ms : MainSettings) (license : RLicense) :
    List Nat → List Event
  | [] => []
  | p :: ps =>
    (if !license.validateRecord (lib.getId p) ms.getApplicationSettings.rangeAccount
          ms.getApplicationSettings.rangePassword then
      [Event.log LogLevel.warning
        ("Missing license for \x27" ++ lib.getName p ++ "\x27 (product-id: " ++ lib.getId p
          ++ ")\n")]
    else [])
    ++ validateRecords lib ms license ps

/-- The `try`/`catch` block of the constructor around the license: the lines it logs. -/
def validateLicense (lib : Library) (ms : MainSettings) (problemTypes : List Nat) : List Event :=
  match lib.read ms.findModuleLicenseFileName with
  | Except.ok license => validateRecords lib ms license problemTypes
  | Except.error rError =>
    [Event.log LogLevel.error
      ("Failed to validate module license file \x27" ++ ms.findModuleLicenseFileName ++ "\x27. "
        ++ rError.message ++ "\n")]

/-- The constructor `SolverTask::SolverTask(applicationSettings, modelID, parent)`.
`generated` is the identifier that `taskID.generate()` draws, through `toString()`.  Returns
the task and the lines logged. -/
def SolverTask.construct (lib : Library) (session : Session) (ms : MainSettings)
    (applicationSettings : ApplicationSettings) (modelID : Nat) (generated : String) :
    SolverTask × List Event :=
  let taskID := generated
  let solverExecutable := applicationSettings.solverPath
  let rModel := session.getModel modelID
  let problemTypes := lib.getTypes rModel.problemTypeMask
  let moduleLicenseFileName := ms.findModuleLicenseFileName
  let logged := validateLicense lib ms problemTypes
  let modelFileName := lib.absoluteFilePath rModel.fileName
  let logFileName := lib.buildTmpFileName rModel "log" taskID
  let convergenceFileName := lib.buildTmpFileName rModel "cvg" taskID
  let monitoringFileName := lib.buildTmpFileName rModel "mon" taskID
  let solverArguments : List String := []
  let solverArguments := solverArguments ++ ["--file=" ++ modelFileName]
  let solverArguments := solverArguments ++ ["--log-file=" ++ logFileName]
  let solverArguments := solverArguments ++ ["--module-license-file=" ++ moduleLicenseFileName]
  let solverArguments := solverArguments ++ ["--convergence-file=" ++ convergenceFileName]
  let solverArguments := solverArguments ++ ["--monitoring-file=" ++ monitoringFileName]
  let solverArguments := solverArguments ++ ["--nthreads=" ++ toString applicationSettings.nThreads]
  let solverArguments := solverArguments ++ ["--read-stdin"]
  ({ applicationSettings := applicationSettings
     modelID := modelID
     taskID := taskID
     solverExecutable := solverExecutable
     solverArguments := solverArguments
     modelFileName := modelFileName
     logFileName := logFileName
     convergenceFileName := convergenceFileName
     monitoringFileName := monitoringFileName
     solverProcess := none },
   logged)

/-! ## `stop` and `kill` -/

/-- Embeds `SolverTask::stop()`: logs, then writes `STOP\n` through `solverProcess`.  No field
of the task is assigned.  Returns the events up to the fault, if any. -/
def SolverTask.stop (t : SolverTask) : List Event × Except Fault Unit :=
  let logged := [Event.log LogLevel.info ("Stopping solver task (#" ++ t.taskID ++ ").\n")]
  let command := "STOP\n"
  match t.solverProcess with
  | none => (logged, Except.error Fault.nullPointerDereference)
  | some _ => (logged ++ [Event.write command], Except.ok ())

/-- Embeds `SolverTask::kill()`: logs, then calls `kill()` through `solverProcess`. -/
def SolverTask.kill (t : SolverTask) : List Event × Except Fault Unit :=
  let logged := [Event.log LogLevel.info ("Killing solver task (#" ++ t.taskID ++ ").\n")]
  match t.solverProcess with
  | none => (logged, Except.error Fault.nullPointerDereference)
  | some _ => (logged ++ [Event.kill], Except.ok ())

/-! ## `run` -/

/-- What the collaborators answer during one run. -/
structure Env where
  /-- Outcome of `Session::storeCurentModelVersion`: returns, or throws an `RError`. -/
  storeCurentModelVersion : Except RError Unit
  /-- Outcome of `ModelIO::save`: returns, or throws an `RError`. -/
  save : Except RError Unit
  /-- Result of `solverProcess->waitForFinished(-1)`. -/
  waitForFinished : Bool
  /-- Value of `solverProcess->exitCode()` after the wait. -/
  exitCode : Int
  /-- Outcome of `ModelIO::update`: returns, or throws an `RError`. -/
  update : Except RError Unit

/-- The string `cmdLine` that `run` builds: the executable, then each argument between double
quotes after a blank. -/
def SolverTask.cmdLine (t : SolverTask) : String :=
  t.solverArguments.foldl (fun cmdLine argument => cmdLine ++ (" \"" ++ argument ++ "\""))
    t.solverExecutable

/-- What is left after a run or a part of it: the task, the trace, and the `RError` thrown,
if any. -/
structure RunResult where
  task : SolverTask
  trace : List Event
  thrown : Option RError

/-- The `RError` thrown by `run` when the model cannot be saved. -/
def failedToSaveModel : RError :=
  ⟨"Failed to start the solver because model could not be saved."⟩

/-- The `RError` thrown by `run` when the wait fails or the exit code is not zero. -/
def solverExecutionFailed : RError :=
  ⟨"Solver execution failed."⟩

/-- The `RError` thrown by `run` when the model cannot be updated. -/
def failedToUpdateModel : RError :=
  ⟨"Failed to finish the solver because model could not be opened."⟩

/-- The body of the outer `try` block of `SolverTask::run()`. -/
def SolverTask.runBody (lib : Library) (session : Session) (env : Env) (t : SolverTask) :
    RunResult :=
  let tr := [Event.storeCurentModelVersion t.modelID "Execute solver task"]
  match env.storeCurentModelVersion with
  | Except.error error => { task := t, trace := tr, thrown := some error }
  | Except.ok () =>
    let tr := tr ++ [Event.log LogLevel.info ("Solver task (#" ++ t.taskID ++ ") - Begin\n"),
                     Event.indent]
    let rModel := session.getModel t.modelID
    let modelFileName := lib.getFileNameWithOutTimeStep rModel.fileName
    -- Save model first.
    let tr := tr ++ [Event.isBlocking true, Event.save modelFileName]
    match env.save with
    | Except.error error =>
      { task := t
        trace := tr ++ [Event.log LogLevel.error
                          (error.message ++ " File: \x27" ++ modelFileName ++ "\x27\n"),
                        Event.isBlocking false]
        thrown := some failedToSaveModel }
    | Except.ok () =>
      let tr := tr ++ [Event.isBlocking false]
      -- Execute solver
      let cmdLine := t.cmdLine
      let tr := tr ++ [Event.log LogLevel.info ("Executing \x27" ++ cmdLine ++ "\x27\n")]
      let process : SolverProcess := { started := none }
      let tr := tr ++ [Event.newSolverProcess, Event.connectStandardOutput,
                       Event.connectStandardError]
      let process := { process with started := some (t.solverExecutable, t.solverArguments) }
      let t := { t with solverProcess := some process }
      let tr := tr ++ [Event.start t.solverExecutable t.solverArguments, Event.waitForFinished]
      if !env.waitForFinished || env.exitCode != 0 then
        { task := t
          trace := tr ++ [Event.log LogLevel.warning
                            ("Command \x27" ++ cmdLine ++ "\x27 failed with exit code = "
                              ++ toString env.exitCode ++ ".\n")]
          thrown := some solverExecutionFailed }
      else
        let tr := tr ++ [Event.log LogLevel.info
                           ("Command \x27" ++ cmdLine ++ "\x27 succesfully finished.\n")]
        -- Update model.
        let tr := tr ++ [Event.isBlocking true, Event.update modelFileName]
        match env.update with
        | Except.error error =>
          { task := t
            trace := tr ++ [Event.log LogLevel.error
                              (error.message ++ " File: \x27" ++ modelFileName ++ "\x27\n"),
                            Event.isBlocking false]
            thrown := some failedToUpdateModel }
        | Except.ok () =>
          { task := t
            trace := tr ++ [Event.isBlocking false, Event.unindent,
                            Event.log LogLevel.info ("Solver task (#" ++ t.taskID ++ ") - End\n"),
                            Event.setModelChanged t.modelID]
            thrown := none }

/-- Embeds `SolverTask::run()`: the `try` block, and the `catch` that logs the `RError` thrown
in it.
`thrown` keeps the error that was caught: nothing is thrown out of `run`. -/
def SolverTask.run (lib : Library) (session : Session) (env : Env) (t : SolverTask) :
    RunResult :=
  let r := t.runBody lib session env
  match r.thrown with
  | none => r
  | some error =>
    { r with
      trace := r.trace ++ [Event.unindent,
                           Event.log LogLevel.error
                             ("Solver task (#" ++ t.taskID ++ ") failed: " ++ error.message ++ "\n")] }

/-! ## The traces of `run`, piece by piece -/

/-- The events of `run` up to and including the call of `ModelIO::save`. -/
def SolverTask.traceToSave (lib : Library) (session : Session) (t : SolverTask) : List Event :=
  [Event.storeCurentModelVersion t.modelID "Execute solver task",
   Event.log LogLevel.info ("Solver task (#" ++ t.taskID ++ ") - Begin\n"),
   Event.indent,
   Event.isBlocking true,
   Event.save (lib.getFileNameWithOutTimeStep (session.getModel t.modelID).fileName)]

/-- The events of `run` from the end of a successful save up to and including the wait for
the process. -/
def SolverTask.traceToWait (t : SolverTask) : List Event :=
  [Event.isBlocking false,
   Event.log LogLevel.info ("Executing \x27" ++ t.cmdLine ++ "\x27\n"),
   Event.newSolverProcess,
   Event.connectStandardOutput,
   Event.connectStandardError,
   Event.start t.solverExecutable t.solverArguments,
   Event.waitForFinished]

/-- The events of `run` from the end of a successful wait up to and including the call of
`ModelIO::update`. -/
def SolverTask.traceToUpdate (lib : Library) (session : Session) (t : SolverTask) : List Event :=
  [Event.log LogLevel.info ("Command \x27" ++ t.cmdLine ++ "\x27 succesfully finished.\n"),
   Event.isBlocking true,
   Event.update (lib.getFileNameWithOutTimeStep (session.getModel t.modelID).fileName)]

/-- The two events of the outer `catch` of `run`. -/
def SolverTask.traceCatch (t : SolverTask) (error : RError) : List Event :=
  [Event.unindent,
   Event.log LogLevel.error
     ("Solver task (#" ++ t.taskID ++ ") failed: " ++ error.message ++ "\n")]

/-- The task once `run` has created and started the process. -/
def SolverTask.started (t : SolverTask) : SolverTask :=
  { t with solverProcess := some { started := some (t.solverExecutable, t.solverArguments) } }

/-! ## Observations on a trace -/

/-- Number of calls of `Session::setModelChanged` in a trace. -/
def setModelChangedCount (trace : List Event) : Nat :=
  trace.countP (fun e => match e with
    | Event.setModelChanged _ => true
    | _ => false)

/-- Number of calls of `start` on a process in a trace. -/
def startCount (trace : List Event) : Nat :=
  trace.countP (fun e => match e with
    | Event.start _ _ => true
    | _ => false)

/-- The value carried by an `isBlocking` signal. -/
def Event.blockingValue : Event → Option Bool
  | Event.isBlocking b => some b
  | _ => none

/-- The values of the `isBlocking` signals of a trace, in order. -/
def blockingValues (trace : List Event) : List Bool :=
  trace.filterMap Event.blockingValue

/-- A serialization step: a call of `ModelIO::save` or of `ModelIO::update`. -/
def Event.isSerialization : Event → Bool
  | Event.save _ => true
  | Event.update _ => true
  | _ => false

/-- The process is started or waited on. -/
def Event.isProcessCall : Event → Bool
  | Event.start _ _ => true
  | Event.waitForFinished => true
  | _ => false

/-- What `run` does right after a call of `ModelIO::save` or `ModelIO::update` on `path`:
`isBlocking(false)` at once when the call returns; when it throws, the error line of the inner
`catch` and then `isBlocking(false)`. -/
def afterSerialization (outcome : Except RError Unit) (path : String) : List Event :=
  match outcome with
  | Except.ok () => [Event.isBlocking false]
  | Except.error error =>
    [Event.log LogLevel.error (error.message ++ " File: \x27" ++ path ++ "\x27\n"),
     Event.isBlocking false]

/-- The events expected right after a serialization call, given the outcomes of `env`; `none`
for the other events. -/
def expectedAfter (env : Env) : Event → Option (List Event)
  | Event.save path => some (afterSerialization env.save path)
  | Event.update path => some (afterSerialization env.update path)
  | _ => none

/-- The blocking signal brackets exactly the serialization steps of a trace: each save and
each update call comes right after `isBlocking(true)`, what comes right after the call is
`afterSerialization` of its outcome, and each `isBlocking(true)` is followed at once by a save
or update call. -/
def Brackets (env : Env) (trace : List Event) : Prop :=
  (∀ pre path post, trace = pre ++ Event.save path :: post →
    pre.getLast? = some (Event.isBlocking true)
    ∧ post.take (afterSerialization env.save path).length = afterSerialization env.save path)
  ∧ (∀ pre path post, trace = pre ++ Event.update path :: post →
    pre.getLast? = some (Event.isBlocking true)
    ∧ post.take (afterSerialization env.update path).length
        = afterSerialization env.update path)
  ∧ (∀ pre post, trace = pre ++ Event.isBlocking true :: post →
    ∃ e, post.head? = some e ∧ e.isSerialization = true)

/-- Blocking is off at every start of, and wait for, the process: the last `isBlocking` signal
emitted before the call carries `false`. -/
def BlockingOffAtProcessCalls (trace : List Event) : Prop :=
  ∀ pre e post, trace = pre ++ e :: post → e.isProcessCall = true →
    (blockingValues pre).getLast? = some false

/-- Checks `Brackets` along a trace; `prev` is the event before the trace. -/
def bracketsFrom (env : Env) (prev : Option Event) : List Event → Bool
  | [] => true
  | e :: es =>
    (match expectedAfter env e with
      | some after =>
        decide (prev = some (Event.isBlocking true)) && decide (es.take after.length = after)
      | none => true)
    && (!decide (e = Event.isBlocking true) || (es.head?.map Event.isSerialization).getD false)
    && bracketsFrom env (some e) es

/-- Checks `BlockingOffAtProcessCalls` along a trace; `last` is the last value of the blocking
signal before the trace. -/
def blockingOffFrom (last : Option Bool) : List Event → Bool
  | [] => true
  | e :: es =>
    (!e.isProcessCall || decide (last = some false))
    && blockingOffFrom (match e.blockingValue with
        | some b => some b
        | none => last) es

/-! ## The command line of the specification -/

/-- The command line as the specification writes it, to be compared with `SolverTask.cmdLine`:
the executable, then the flags separated by single blanks, each path value (and only the
value) between double quotes, the thread count and `--read-stdin` without quotes. -/
def specCommandLine (solverExecutable modelSnapshotPath logPath licensePath convergencePath
    monitoringPath : String) (nThreads : Nat) : String :=
  solverExecutable
    ++ " " ++ "--file=\"" ++ modelSnapshotPath ++ "\""
    ++ " " ++ "--log-file=\"" ++ logPath ++ "\""
    ++ " " ++ "--module-license-file=\"" ++ licensePath ++ "\""
    ++ " " ++ "--convergence-file=\"" ++ convergencePath ++ "\""
    ++ " " ++ "--monitoring-file=\"" ++ monitoringPath ++ "\""
    ++ " " ++ "--nthreads=" ++ toString nThreads
    ++ " " ++ "--read-stdin"

/-! ## Concrete inputs -/

/-- A library whose temporary file names are `m.` followed by the kind, where every license
reads and validates only the product `1`. -/
def libW : Library where
  getTypes := fun mask => if mask = 0 then [] else [1, 2]
  getId := fun p => toString p
  getName := fun p => "problem" ++ toString p
  read := fun _ => Except.ok ⟨fun id _ _ => id == "1"⟩
  absoluteFilePath := fun f => f
  buildTmpFileName := fun _ kind _ => "m." ++ kind
  getFileNameWithOutTimeStep := fun f => f

/-- The library `libW` with a license file that cannot be read. -/
def libNoLicense : Library :=
  { libW with read := fun _ => Except.error ⟨"cannot open file"⟩ }

/-- The library `libW` with temporary file names made of the model's file name, the task
identifier and the kind. -/
def libTmp : Library :=
  { libW with buildTmpFileName := fun m kind id => m.fileName ++ "-" ++ id ++ "." ++ kind }

/-- Settings with the solver `solver` and 4 threads. -/
def settingsW : ApplicationSettings :=
  { solverPath := "solver", nThreads := 4, rangeAccount := "account", rangePassword := "password" }

/-- Main settings with the license file `lic.key`. -/
def mainSettingsW : MainSettings :=
  { findModuleLicenseFileName := "lic.key", getApplicationSettings := settingsW }

/-- A session whose models all have the file name `m.model`. -/
def sessionW : Session :=
  { getModel := fun _ => { fileName := "m.model", problemTypeMask := 1 } }

/-- The task constructed from the inputs above for the model 7. -/
def taskW : SolverTask :=
  (SolverTask.construct libW sessionW mainSettingsW settingsW 7 "abc123").1

/-- A run where every collaborator succeeds and the solver exits with the code `exitCode`. -/
def envExit (exitCode : Int) : Env :=
  { storeCurentModelVersion := Except.ok ()
    save := Except.ok ()
    waitForFinished := true
    exitCode := exitCode
    update := Except.ok () }

/-- A run where the checkpoint succeeds and `ModelIO::save` throws `error`. -/
def envSaveError (error : RError) : Env :=
  { storeCurentModelVersion := Except.ok ()
    save := Except.error error
    waitForFinished := true
    exitCode := 0
    update := Except.ok () }

/-- A run where the solver exits with the code 0 and `ModelIO::update` throws `error`. -/
def envUpdateError (error : RError) : Env :=
  { storeCurentModelVersion := Except.ok ()
    save := Except.ok ()
    waitForFinished := true
    exitCode := 0
    update := Except.error error }

/-- A run where `Session::storeCurentModelVersion` throws `error` and everything after it
would succeed. -/
def envStoreError (error : RError) : Env :=
  { storeCurentModelVersion := Except.error error
    save := Except.ok ()
    waitForFinished := true
    exitCode := 0
    update := Except.ok () }

/-! ## The five ways through `run` -/

theorem run_of_store_error (lib : Library) (session : Session) (env : Env) (t : SolverTask)
    (error : RError) (hstore : env.storeCurentModelVersion = Except.error error) :
    t.run lib session env =
      { task := t
        trace := Event.storeCurentModelVersion t.modelID "Execute solver task"
                   :: t.traceCatch error
        thrown := some error } := by
  simp [SolverTask.run, SolverTask.runBody, SolverTask.traceCatch, hstore]

theorem run_of_save_error (lib : Library) (session : Session) (env : Env) (t : SolverTask)
    (error : RError) (hstore : env.storeCurentModelVersion = Except.ok ())
    (hsave : env.save = Except.error error) :
    t.run lib session env =
      { task := t
        trace := t.traceToSave lib session
          ++ [Event.log LogLevel.error
                (error.message ++ " File: \x27"
                  ++ lib.getFileNameWithOutTimeStep (session.getModel t.modelID).fileName
                  ++ "\x27\n"),
              Event.isBlocking false]
          ++ t.traceCatch failedToSaveModel
        thrown := some failedToSaveModel } := by
  simp [SolverTask.run, SolverTask.runBody, SolverTask.traceCatch, SolverTask.traceToSave,
    hstore, hsave]

theorem run_of_solver_failure (lib : Library) (session : Session) (env : Env) (t : SolverTask)
    (hstore : env.storeCurentModelVersion = Except.ok ()) (hsave : env.save = Except.ok ())
    (hfail : env.waitForFinished = false ∨ env.exitCode ≠ 0) :
    t.run lib session env =
      { task := t.started
        trace := t.traceToSave lib session ++ t.traceToWait
          ++ [Event.log LogLevel.warning
                ("Command \x27" ++ t.cmdLine ++ "\x27 failed with exit code = "
                  ++ toString env.exitCode ++ ".\n")]
          ++ t.traceCatch solverExecutionFailed
        thrown := some solverExecutionFailed } := by
  have hcond : (!env.waitForFinished || env.exitCode != 0) = true := by
    rcases hfail with h | h
    · simp [h]
    · simp [h]
  simp [SolverTask.run, SolverTask.runBody, SolverTask.traceCatch, SolverTask.traceToSave,
    SolverTask.traceToWait, SolverTask.started, SolverTask.cmdLine, hstore, hsave, hcond]

theorem run_of_update_error (lib : Library) (session : Session) (env : Env) (t : SolverTask)
    (error : RError) (hstore : env.storeCurentModelVersion = Except.ok ())
    (hsave : env.save = Except.ok ()) (hwait : env.waitForFinished = true)
    (hexit : env.exitCode = 0) (hupdate : env.update = Except.error error) :
    t.run lib session env =
      { task := t.started
        trace := t.traceToSave lib session ++ t.traceToWait ++ t.traceToUpdate lib session
          ++ [Event.log LogLevel.error
                (error.message ++ " File: \x27"
                  ++ lib.getFileNameWithOutTimeStep (session.getModel t.modelID).fileName
                  ++ "\x27\n"),
              Event.isBlocking false]
          ++ t.traceCatch failedToUpdateModel
        thrown := some failedToUpdateModel } := by
  simp [SolverTask.run, SolverTask.runBody, SolverTask.traceCatch, SolverTask.traceToSave,
    SolverTask.traceToWait, SolverTask.traceToUpdate, SolverTask.started, SolverTask.cmdLine,
    hstore, hsave, hwait, hexit, hupdate]

theorem run_of_success (lib : Library) (session : Session) (env : Env) (t : SolverTask)
    (hstore : env.storeCurentModelVersion = Except.ok ())
    (hsave : env.save = Except.ok ()) (hwait : env.waitForFinished = true)
    (hexit : env.exitCode = 0) (hupdate : env.update = Except.ok ()) :
    t.run lib session env =
      { task := t.started
        trace := t.traceToSave lib session ++ t.traceToWait ++ t.traceToUpdate lib session
          ++ [Event.isBlocking false,
              Event.unindent,
              Event.log LogLevel.info ("Solver task (#" ++ t.taskID ++ ") - End\n"),
              Event.setModelChanged t.modelID]
        thrown := none } := by
  simp [SolverTask.run, SolverTask.runBody, SolverTask.traceToSave,
    SolverTask.traceToWait, SolverTask.traceToUpdate, SolverTask.started, SolverTask.cmdLine,
    hstore, hsave, hwait, hexit, hupdate]

/-- A property holds of the result of `run` as soon as it holds of the result along each of
the five ways through it. -/
theorem run_by_cases (lib : Library) (session : Session) (env : Env) (t : SolverTask)
    (P : RunResult → Prop)
    (hstoreError : ∀ error, env.storeCurentModelVersion = Except.error error →
      P { task := t
          trace := Event.storeCurentModelVersion t.modelID "Execute solver task"
                     :: t.traceCatch error
          thrown := some error })
    (hsaveError : ∀ error, env.storeCurentModelVersion = Except.ok () →
      env.save = Except.error error →
      P { task := t
          trace := t.traceToSave lib session
            ++ [Event.log LogLevel.error
                  (error.message ++ " File: \x27"
                    ++ lib.getFileNameWithOutTimeStep (session.getModel t.modelID).fileName
                    ++ "\x27\n"),
                Event.isBlocking false]
            ++ t.traceCatch failedToSaveModel
          thrown := some failedToSaveModel })
    (hsolverFailure : env.storeCurentModelVersion = Except.ok () → env.save = Except.ok () →
      (env.waitForFinished = false ∨ env.exitCode ≠ 0) →
      P { task := t.started
          trace := t.traceToSave lib session ++ t.traceToWait
            ++ [Event.log LogLevel.warning
                  ("Command \x27" ++ t.cmdLine ++ "\x27 failed with exit code = "
                    ++ toString env.exitCode ++ ".\n")]
            ++ t.traceCatch solverExecutionFailed
          thrown := some solverExecutionFailed })
    (hupdateError : ∀ error, env.storeCurentModelVersion = Except.ok () →
      env.save = Except.ok () → env.waitForFinished = true → env.exitCode = 0 →
      env.update = Except.error error →
      P { task := t.started
          trace := t.traceToSave lib session ++ t.traceToWait ++ t.traceToUpdate lib session
            ++ [Event.log LogLevel.error
                  (error.message ++ " File: \x27"
                    ++ lib.getFileNameWithOutTimeStep (session.getModel t.modelID).fileName
                    ++ "\x27\n"),
                Event.isBlocking false]
            ++ t.traceCatch failedToUpdateModel
          thrown := some failedToUpdateModel })
    (hsuccess : env.storeCurentModelVersion = Except.ok () → env.save = Except.ok () →
      env.waitForFinished = true → env.exitCode = 0 → env.update = Except.ok () →
      P { task := t.started
          trace := t.traceToSave lib session ++ t.traceToWait ++ t.traceToUpdate lib session
            ++ [Event.isBlocking false,
                Event.unindent,
                Event.log LogLevel.info ("Solver task (#" ++ t.taskID ++ ") - End\n"),
                Event.setModelChanged t.modelID]
          thrown := none }) :
    P (t.run lib session env) := by
  cases hstore : env.storeCurentModelVersion with
  | error error =>
    rw [run_of_store_error lib session env t error hstore]
    exact hstoreError error hstore
  | ok u =>
    cases u
    cases hsave : env.save with
    | error error =>
      rw [run_of_save_error lib session env t error hstore hsave]
      exact hsaveError error hstore hsave
    | ok u =>
      cases u
      by_cases hfail : env.waitForFinished = false ∨ env.exitCode ≠ 0
      · rw [run_of_solver_failure lib session env t hstore hsave hfail]
        exact hsolverFailure hstore hsave hfail
      · have hwait : env.waitForFinished = true := by
          cases h : env.waitForFinished
          · exact absurd (Or.inl h) hfail
          · rfl
        have hexit : env.exitCode = 0 := by
          by_contra h
          exact hfail (Or.inr h)
        cases hupdate : env.update with
        | error error =>
          rw [run_of_update_error lib session env t error hstore hsave hwait hexit hupdate]
          exact hupdateError error hstore hsave hwait hexit hupdate
        | ok u =>
          cases u
          rw [run_of_success lib session env t hstore hsave hwait hexit hupdate]
          exact hsuccess hstore hsave hwait hexit hupdate

/-- Every call of `ModelIO::save` or `ModelIO::update` made by `run` is on the file name of the
task's model without its time step. -/
theorem serialization_path_of_run (lib : Library) (session : Session) (env : Env)
    (t : SolverTask) (path : String)
    (h : Event.save path ∈ (t.run lib session env).trace
      ∨ Event.update path ∈ (t.run lib session env).trace) :
    path = lib.getFileNameWithOutTimeStep (session.getModel t.modelID).fileName := by
  revert h
  refine run_by_cases lib session env t
    (fun r => Event.save path ∈ r.trace ∨ Event.update path ∈ r.trace →
      path = lib.getFileNameWithOutTimeStep (session.getModel t.modelID).fileName)
    ?_ ?_ ?_ ?_ ?_
  all_goals
    intros
    simp_all [SolverTask.traceCatch, SolverTask.traceToSave, SolverTask.traceToWait,
      SolverTask.traceToUpdate]

/-! ## Lemmas on the license loop, on strings and on the checks of the blocking signal -/

/-- The loop of the constructor logs, in order, one warning for each problem type whose
record does not validate. -/
theorem validateRecords_eq_map_filter (lib : Library) (ms : MainSettings) (license : RLicense)
    (problemTypes : List Nat) :
    validateRecords lib ms license problemTypes =
      (problemTypes.filter (fun p =>
          !license.validateRecord (lib.getId p) ms.getApplicationSettings.rangeAccount
            ms.getApplicationSettings.rangePassword)).map
        (fun p => Event.log LogLevel.warning
          ("Missing license for \x27" ++ lib.getName p ++ "\x27 (product-id: " ++ lib.getId p
            ++ ")\n")) := by
  induction problemTypes with
  | nil => rfl
  | cons p ps ih =>
    cases h : license.validateRecord (lib.getId p) ms.getApplicationSettings.rangeAccount
        ms.getApplicationSettings.rangePassword
    · simp [validateRecords, h, ih]
    · simp [validateRecords, h, ih]

theorem string_append_right_cancel {a b c : String} (h : a ++ c = b ++ c) : a = b := by
  apply String.ext
  have h2 := congrArg String.data h
  simp only [String.data_append] at h2
  exact List.append_cancel_right h2

theorem string_append_left_cancel {a b c : String} (h : c ++ a = c ++ b) : a = b := by
  apply String.ext
  have h2 := congrArg String.data h
  simp only [String.data_append] at h2
  exact List.append_cancel_left h2

/-- The temporary file names of `libTmp` are different for different task identifiers. -/
theorem libTmp_buildTmpFileName_injective (m : Model) (kind : String) :
    Function.Injective (libTmp.buildTmpFileName m kind) := by
  intro id1 id2 h
  simp only [libTmp] at h
  exact string_append_left_cancel (string_append_right_cancel (string_append_right_cancel h))

theorem bracketsFrom_sound (env : Env) (trace : List Event) :
    ∀ (prev : Option Event), bracketsFrom env prev trace = true →
      (∀ pre e post after, trace = pre ++ e :: post → expectedAfter env e = some after →
        (prev.toList ++ pre).getLast? = some (Event.isBlocking true)
        ∧ post.take after.length = after)
      ∧ (∀ pre post, trace = pre ++ Event.isBlocking true :: post →
        ∃ e, post.head? = some e ∧ e.isSerialization = true) := by
  induction trace with
  | nil =>
    intro prev _
    constructor
    · intro pre e post after h
      simp at h
    · intro pre post h
      simp at h
  | cons a rest ih =>
    intro prev hcheck
    simp only [bracketsFrom, Bool.and_eq_true, Bool.or_eq_true, Bool.not_eq_true',
      decide_eq_true_eq, Bool.decide_eq_false] at hcheck
    obtain ⟨⟨hser, hon⟩, hrest⟩ := hcheck
    obtain ⟨ih1, ih2⟩ := ih (some a) hrest
    constructor
    · intro pre e post after h hexp
      cases pre with
      | nil =>
        simp only [List.nil_append, List.cons.injEq] at h
        obtain ⟨rfl, rfl⟩ := h
        simp only [hexp, Bool.and_eq_true, decide_eq_true_eq] at hser
        refine ⟨?_, hser.2⟩
        rw [hser.1]
        rfl
      | cons b pre2 =>
        simp only [List.cons_append, List.cons.injEq] at h
        obtain ⟨rfl, rfl⟩ := h
        have h3 := ih1 pre2 e post after rfl hexp
        refine ⟨?_, h3.2⟩
        have h4 : (prev.toList ++ a :: pre2).getLast? = ((some a).toList ++ pre2).getLast? := by
          cases prev <;> simp [List.getLast?_cons_cons, List.getLast?_append]
        rw [h4]
        exact h3.1
    · intro pre post h
      cases pre with
      | nil =>
        simp only [List.nil_append, List.cons.injEq] at h
        obtain ⟨rfl, rfl⟩ := h
        rcases hon with hon | hon
        · simp at hon
        · cases rest with
          | nil => simp at hon
          | cons e es => exact ⟨e, rfl, by simpa using hon⟩
      | cons b pre2 =>
        simp only [List.cons_append, List.cons.injEq] at h
        obtain ⟨rfl, rfl⟩ := h
        exact ih2 pre2 post rfl

theorem blockingOffFrom_sound (trace : List Event) :
    ∀ (last : Option Bool), blockingOffFrom last trace = true →
      ∀ pre e post, trace = pre ++ e :: post → e.isProcessCall = true →
        (last.toList ++ blockingValues pre).getLast? = some false := by
  induction trace with
  | nil =>
    intro last _ pre e post h
    simp at h
  | cons a rest ih =>
    intro last hcheck pre e post h hp
    simp only [blockingOffFrom, Bool.and_eq_true, Bool.or_eq_true, Bool.not_eq_true',
      decide_eq_true_eq] at hcheck
    obtain ⟨hhere, hrest⟩ := hcheck
    cases pre with
    | nil =>
      simp only [List.nil_append, List.cons.injEq] at h
      obtain ⟨rfl, rfl⟩ := h
      rcases hhere with hhere | hhere
      · rw [hp] at hhere
        exact absurd hhere (by decide)
      · simp [hhere, blockingValues]
    | cons b pre2 =>
      simp only [List.cons_append, List.cons.injEq] at h
      obtain ⟨rfl, rfl⟩ := h
      have h3 := ih _ hrest pre2 e post rfl hp
      cases hv : a.blockingValue with
      | none =>
        rw [hv] at h3
        simpa [blockingValues, List.filterMap_cons, hv] using h3
      | some v =>
        rw [hv] at h3
        have h4 : (last.toList ++ blockingValues (a :: pre2)).getLast? =
            ((some v).toList ++ blockingValues pre2).getLast? := by
          cases last <;>
            simp [blockingValues, List.filterMap_cons, hv, List.getLast?_cons_cons,
              List.getLast?_append]
        rw [h4]
        exact h3

theorem brackets_of_bracketsFrom (env : Env) (trace : List Event)
    (h : bracketsFrom env none trace = true) : Brackets env trace := by
  have h2 := bracketsFrom_sound env trace none h
  refine ⟨?_, ?_, h2.2⟩
  · intro pre path post hd
    simpa using h2.1 pre (Event.save path) post _ hd rfl
  · intro pre path post hd
    simpa using h2.1 pre (Event.update path) post _ hd rfl

theorem blockingOff_of_blockingOffFrom (trace : List Event)
    (h : blockingOffFrom none trace = true) : BlockingOffAtProcessCalls trace := by
  intro pre e post hd hp
  simpa using blockingOffFrom_sound trace none h pre e post hd hp

/-! ## The argument list and the outcomes of `run` (C1 to C4) -/

/-- C1: the constructor builds exactly the seven arguments `--file=`, `--log-file=`,
`--module-license-file=`, `--convergence-file=`, `--monitoring-file=`, `--nthreads=` and
`--read-stdin`, in this order, from the task's paths, the license file name and the decimal
thread count; `run` leaves the list as it is, every `start` it calls receives this list, and
it does call `start` with it once the checkpoint and the save have succeeded. -/
theorem solverArguments_built_once_and_passed (lib : Library) (session : Session)
    (ms : MainSettings) (settings : ApplicationSettings) (modelID : Nat) (generated : String)
    (env : Env) :
    (SolverTask.construct lib session ms settings modelID generated).1.solverArguments =
      ["--file=" ++ (SolverTask.construct lib session ms settings modelID generated).1.modelFileName,
       "--log-file=" ++ (SolverTask.construct lib session ms settings modelID generated).1.logFileName,
       "--module-license-file=" ++ ms.findModuleLicenseFileName,
       "--convergence-file="
         ++ (SolverTask.construct lib session ms settings modelID generated).1.convergenceFileName,
       "--monitoring-file="
         ++ (SolverTask.construct lib session ms settings modelID generated).1.monitoringFileName,
       "--nthreads=" ++ toString settings.nThreads,
       "--read-stdin"]
    ∧ (((SolverTask.construct lib session ms settings modelID generated).1.run
          lib session env).task.solverArguments =
        (SolverTask.construct lib session ms settings modelID generated).1.solverArguments)
    ∧ (∀ program arguments,
        Event.start program arguments ∈
          ((SolverTask.construct lib session ms settings modelID generated).1.run
            lib session env).trace →
        arguments =
          (SolverTask.construct lib session ms settings modelID generated).1.solverArguments)
    ∧ (env.storeCurentModelVersion = Except.ok () → env.save = Except.ok () →
        Event.start (SolverTask.construct lib session ms settings modelID generated).1.solverExecutable
            (SolverTask.construct lib session ms settings modelID generated).1.solverArguments ∈
          ((SolverTask.construct lib session ms settings modelID generated).1.run
            lib session env).trace) := by
  refine ⟨by simp [SolverTask.construct], ?_⟩
  generalize (SolverTask.construct lib session ms settings modelID generated).1 = t
  refine run_by_cases lib session env t
    (fun r => r.task.solverArguments = t.solverArguments
      ∧ (∀ program arguments, Event.start program arguments ∈ r.trace →
          arguments = t.solverArguments)
      ∧ (env.storeCurentModelVersion = Except.ok () → env.save = Except.ok () →
          Event.start t.solverExecutable t.solverArguments ∈ r.trace))
    ?_ ?_ ?_ ?_ ?_
  all_goals
    intros
    simp_all [SolverTask.traceCatch, SolverTask.traceToSave, SolverTask.traceToWait,
      SolverTask.traceToUpdate, SolverTask.started]

set_option maxRecDepth 100000 in
/-- Witness of C1: the configuration `m.model`, `m.log`, `lic.key`, `m.cvg`, `m.mon` with 4
threads gives the seven arguments of the claim, and a run whose save succeeds starts `solver`
with them. -/
theorem solverArguments_built_once_and_passed_witness :
    taskW.solverArguments =
      ["--file=m.model", "--log-file=m.log", "--module-license-file=lic.key",
       "--convergence-file=m.cvg", "--monitoring-file=m.mon", "--nthreads=4", "--read-stdin"]
    ∧ Event.start "solver"
        ["--file=m.model", "--log-file=m.log", "--module-license-file=lic.key",
         "--convergence-file=m.cvg", "--monitoring-file=m.mon", "--nthreads=4", "--read-stdin"] ∈
      (taskW.run libW sessionW (envExit 0)).trace :=
  ⟨(solverArguments_built_once_and_passed libW sessionW mainSettingsW settingsW 7 "abc123"
      (envExit 0)).1.trans (by decide),
   (solverArguments_built_once_and_passed libW sessionW mainSettingsW settingsW 7 "abc123"
      (envExit 0)).2.2.2 rfl rfl⟩

/-- C2: when `ModelIO::save` throws, no process is created or started (no `start` call at
all, the process pointer stays as it was), neither `ModelIO::update` nor
`Session::setModelChanged` is called, and the error that `run` reports is the one saying that
the model could not be saved. -/
theorem save_failure_never_starts_solver (lib : Library) (session : Session) (env : Env)
    (t : SolverTask) (error : RError)
    (hstore : env.storeCurentModelVersion = Except.ok ())
    (hsave : env.save = Except.error error) :
    (t.run lib session env).thrown = some failedToSaveModel
    ∧ (t.run lib session env).trace.getLast? =
        some (Event.log LogLevel.error
          ("Solver task (#" ++ t.taskID ++ ") failed: " ++ failedToSaveModel.message ++ "\n"))
    ∧ startCount (t.run lib session env).trace = 0
    ∧ Event.newSolverProcess ∉ (t.run lib session env).trace
    ∧ (t.run lib session env).task.solverProcess = t.solverProcess
    ∧ (∀ path, Event.update path ∉ (t.run lib session env).trace)
    ∧ setModelChangedCount (t.run lib session env).trace = 0 := by
  rw [run_of_save_error lib session env t error hstore hsave]
  simp [SolverTask.traceCatch, SolverTask.traceToSave, startCount, setModelChangedCount,
    failedToSaveModel]

/-- Witness of C2: a run of the concrete task whose save throws. -/
theorem save_failure_never_starts_solver_witness :
    (envSaveError ⟨"disk full"⟩).storeCurentModelVersion = Except.ok ()
    ∧ (envSaveError ⟨"disk full"⟩).save = Except.error ⟨"disk full"⟩
    ∧ (taskW.run libW sessionW (envSaveError ⟨"disk full"⟩)).thrown = some failedToSaveModel
    ∧ startCount (taskW.run libW sessionW (envSaveError ⟨"disk full"⟩)).trace = 0
    ∧ setModelChangedCount (taskW.run libW sessionW (envSaveError ⟨"disk full"⟩)).trace = 0 :=
  have h := save_failure_never_starts_solver libW sessionW (envSaveError ⟨"disk full"⟩) taskW
    ⟨"disk full"⟩ rfl rfl
  ⟨rfl, rfl, h.1, h.2.2.1, h.2.2.2.2.2.2⟩

/-- C3: when the model was saved and the wait fails or the exit code `c` is not zero, `run`
logs the failure with the exit code `c` and reports the solver failure, and neither
`ModelIO::update` nor `Session::setModelChanged` is called. -/
theorem solver_failure_skips_update (lib : Library) (session : Session) (env : Env)
    (t : SolverTask)
    (hstore : env.storeCurentModelVersion = Except.ok ())
    (hsave : env.save = Except.ok ())
    (hfail : env.waitForFinished = false ∨ env.exitCode ≠ 0) :
    (t.run lib session env).thrown = some solverExecutionFailed
    ∧ Event.log LogLevel.warning
        ("Command \x27" ++ t.cmdLine ++ "\x27 failed with exit code = "
          ++ toString env.exitCode ++ ".\n") ∈ (t.run lib session env).trace
    ∧ (t.run lib session env).trace.getLast? =
        some (Event.log LogLevel.error
          ("Solver task (#" ++ t.taskID ++ ") failed: " ++ solverExecutionFailed.message
            ++ "\n"))
    ∧ (∀ path, Event.update path ∉ (t.run lib session env).trace)
    ∧ setModelChangedCount (t.run lib session env).trace = 0 := by
  rw [run_of_solver_failure lib session env t hstore hsave hfail]
  simp [SolverTask.traceCatch, SolverTask.traceToSave, SolverTask.traceToWait,
    setModelChangedCount, solverExecutionFailed]

set_option maxRecDepth 100000 in
/-- Witness of C3: the solver exits with the code 3. -/
theorem solver_failure_skips_update_witness :
    (envExit 3).storeCurentModelVersion = Except.ok ()
    ∧ (envExit 3).save = Except.ok ()
    ∧ (envExit 3).exitCode ≠ 0
    ∧ (taskW.run libW sessionW (envExit 3)).thrown = some solverExecutionFailed
    ∧ Event.log LogLevel.warning
        ("Command \x27" ++ taskW.cmdLine ++ "\x27 failed with exit code = 3.\n") ∈
        (taskW.run libW sessionW (envExit 3)).trace
    ∧ setModelChangedCount (taskW.run libW sessionW (envExit 3)).trace = 0 :=
  have h := solver_failure_skips_update libW sessionW (envExit 3) taskW rfl rfl
    (Or.inr (by decide))
  ⟨rfl, rfl, by decide, h.1, h.2.1, h.2.2.2.2⟩

/-- C4: when the model was saved and the solver finished with the exit code 0, a throwing
`ModelIO::update` makes `run` report that the model could not be updated and
`Session::setModelChanged` is not called; when the update succeeds too, nothing is reported
and `Session::setModelChanged` is called exactly once, for the task's model. -/
theorem setModelChanged_only_on_full_success (lib : Library) (session : Session) (env : Env)
    (t : SolverTask)
    (hstore : env.storeCurentModelVersion = Except.ok ())
    (hsave : env.save = Except.ok ())
    (hwait : env.waitForFinished = true) (hexit : env.exitCode = 0) :
    (∀ error, env.update = Except.error error →
        (t.run lib session env).thrown = some failedToUpdateModel
        ∧ (t.run lib session env).trace.getLast? =
            some (Event.log LogLevel.error
              ("Solver task (#" ++ t.taskID ++ ") failed: " ++ failedToUpdateModel.message
                ++ "\n"))
        ∧ setModelChangedCount (t.run lib session env).trace = 0)
    ∧ (env.update = Except.ok () →
        (t.run lib session env).thrown = none
        ∧ setModelChangedCount (t.run lib session env).trace = 1
        ∧ Event.setModelChanged t.modelID ∈ (t.run lib session env).trace) := by
  constructor
  · intro error hupdate
    rw [run_of_update_error lib session env t error hstore hsave hwait hexit hupdate]
    simp [SolverTask.traceCatch, SolverTask.traceToSave, SolverTask.traceToWait,
      SolverTask.traceToUpdate, setModelChangedCount, failedToUpdateModel]
  · intro hupdate
    rw [run_of_success lib session env t hstore hsave hwait hexit hupdate]
    simp [SolverTask.traceToSave, SolverTask.traceToWait, SolverTask.traceToUpdate,
      setModelChangedCount]

/-- Witness of C4: one run whose update throws and one where everything succeeds. -/
theorem setModelChanged_only_on_full_success_witness :
    ((taskW.run libW sessionW (envUpdateError ⟨"bad file"⟩)).thrown = some failedToUpdateModel
      ∧ setModelChangedCount (taskW.run libW sessionW (envUpdateError ⟨"bad file"⟩)).trace = 0)
    ∧ ((taskW.run libW sessionW (envExit 0)).thrown = none
      ∧ setModelChangedCount (taskW.run libW sessionW (envExit 0)).trace = 1) :=
  have h1 := (setModelChanged_only_on_full_success libW sessionW (envUpdateError ⟨"bad file"⟩)
    taskW rfl rfl rfl rfl).1 ⟨"bad file"⟩ rfl
  have h2 := (setModelChanged_only_on_full_success libW sessionW (envExit 0)
    taskW rfl rfl rfl rfl).2 rfl
  ⟨⟨h1.1, h1.2.2⟩, ⟨h2.1, h2.2.1⟩⟩

/-! ## `stop` and `kill` before the process exists (C5) -/

/-- C5, on the code: for a task as the constructor leaves it, `stop()` and `kill()` log
their line and then call through the null `solverProcess`. -/
theorem stop_and_kill_before_run_fault (lib : Library) (session : Session)
    (ms : MainSettings) (settings : ApplicationSettings) (modelID : Nat) (generated : String) :
    (SolverTask.construct lib session ms settings modelID generated).1.solverProcess = none
    ∧ (SolverTask.construct lib session ms settings modelID generated).1.stop =
        ([Event.log LogLevel.info ("Stopping solver task (#" ++ generated ++ ").\n")],
         Except.error Fault.nullPointerDereference)
    ∧ (SolverTask.construct lib session ms settings modelID generated).1.kill =
        ([Event.log LogLevel.info ("Killing solver task (#" ++ generated ++ ").\n")],
         Except.error Fault.nullPointerDereference) := by
  simp [SolverTask.construct, SolverTask.stop, SolverTask.kill]

/-! ## The command line (C6) -/

set_option maxRecDepth 100000 in
/-- C6, as stated, fails: for the configuration `solver`, `m.model`, `m.log`, `lic.key`,
`m.cvg`, `m.mon`, 4 threads, the string that `run` builds is not the command line of the
specification. -/
theorem cmdLine_differs_from_specCommandLine :
    taskW.cmdLine ≠
      specCommandLine taskW.solverExecutable taskW.modelFileName taskW.logFileName
        mainSettingsW.findModuleLicenseFileName taskW.convergenceFileName
        taskW.monitoringFileName settingsW.nThreads := by
  decide

/-- C6, amended: the string that `run` builds is the executable followed, for each of the
seven arguments in order, by a blank and the whole argument, flag name included, between
double quotes; so `--nthreads=N` and `--read-stdin` are quoted as well. -/
theorem cmdLine_quotes_each_argument (lib : Library) (session : Session)
    (ms : MainSettings) (settings : ApplicationSettings) (modelID : Nat) (generated : String) :
    (SolverTask.construct lib session ms settings modelID generated).1.cmdLine =
      settings.solverPath
        ++ " \"" ++ "--file="
          ++ (SolverTask.construct lib session ms settings modelID generated).1.modelFileName
          ++ "\""
        ++ " \"" ++ "--log-file="
          ++ (SolverTask.construct lib session ms settings modelID generated).1.logFileName
          ++ "\""
        ++ " \"" ++ "--module-license-file=" ++ ms.findModuleLicenseFileName ++ "\""
        ++ " \"" ++ "--convergence-file="
          ++ (SolverTask.construct lib session ms settings modelID generated).1.convergenceFileName
          ++ "\""
        ++ " \"" ++ "--monitoring-file="
          ++ (SolverTask.construct lib session ms settings modelID generated).1.monitoringFileName
          ++ "\""
        ++ " \"" ++ "--nthreads=" ++ toString settings.nThreads ++ "\""
        ++ " \"" ++ "--read-stdin" ++ "\"" := by
  simp only [SolverTask.construct, SolverTask.cmdLine, List.nil_append, List.cons_append,
    List.foldl_cons, List.foldl_nil, String.append_assoc]

/-! ## A failing checkpoint (C7) -/

/-- C7, as stated, fails: when `Session::storeCurentModelVersion` throws, `run` calls neither
`ModelIO::save` nor `start`, although the save and the solver would have succeeded. -/
theorem checkpoint_failure_blocks_run :
    ¬ ((∃ path, Event.save path ∈
          (taskW.run libW sessionW (envStoreError ⟨"no such model"⟩)).trace)
       ∧ startCount (taskW.run libW sessionW (envStoreError ⟨"no such model"⟩)).trace ≠ 0) := by
  rw [run_of_store_error libW sessionW (envStoreError ⟨"no such model"⟩) taskW
    ⟨"no such model"⟩ rfl]
  simp [SolverTask.traceCatch, startCount]

/-- C7, amended: when `Session::storeCurentModelVersion` throws an `RError`, the outer `catch`
of `run` logs it as the failure of the task and the run ends there: the trace is the
checkpoint call, `unindent` and the error line, so `ModelIO::save` is not called, the process
is not started and no blocking signal is emitted. -/
theorem checkpoint_failure_is_logged_and_ends_run (lib : Library) (session : Session)
    (env : Env) (t : SolverTask) (error : RError)
    (hstore : env.storeCurentModelVersion = Except.error error) :
    (t.run lib session env).thrown = some error
    ∧ (t.run lib session env).trace =
        [Event.storeCurentModelVersion t.modelID "Execute solver task",
         Event.unindent,
         Event.log LogLevel.error
           ("Solver task (#" ++ t.taskID ++ ") failed: " ++ error.message ++ "\n")]
    ∧ (∀ path, Event.save path ∉ (t.run lib session env).trace)
    ∧ startCount (t.run lib session env).trace = 0
    ∧ (∀ b, Event.isBlocking b ∉ (t.run lib session env).trace)
    ∧ (t.run lib session env).task = t := by
  rw [run_of_store_error lib session env t error hstore]
  simp [SolverTask.traceCatch, startCount]

/-- Witness of the amended C7: the checkpoint throws `no such model`. -/
theorem checkpoint_failure_is_logged_and_ends_run_witness :
    (envStoreError ⟨"no such model"⟩).storeCurentModelVersion = Except.error ⟨"no such model"⟩
    ∧ (taskW.run libW sessionW (envStoreError ⟨"no such model"⟩)).trace =
        [Event.storeCurentModelVersion 7 "Execute solver task",
         Event.unindent,
         Event.log LogLevel.error "Solver task (#abc123) failed: no such model\n"] :=
  ⟨rfl, (checkpoint_failure_is_logged_and_ends_run libW sessionW
      (envStoreError ⟨"no such model"⟩) taskW ⟨"no such model"⟩ rfl).2.1.trans (by decide)⟩

/-! ## Two tasks on one model (C8) -/

/-- C8, as stated, fails: two tasks constructed on the model 7 with the identifiers `a` and
`b` do not differ in all four paths, they have the same model file name. -/
theorem two_tasks_share_model_file :
    ¬ ((SolverTask.construct libTmp sessionW mainSettingsW settingsW 7 "a").1.modelFileName ≠
          (SolverTask.construct libTmp sessionW mainSettingsW settingsW 7 "b").1.modelFileName
       ∧ (SolverTask.construct libTmp sessionW mainSettingsW settingsW 7 "a").1.logFileName ≠
          (SolverTask.construct libTmp sessionW mainSettingsW settingsW 7 "b").1.logFileName
       ∧ (SolverTask.construct libTmp sessionW mainSettingsW settingsW 7 "a").1.convergenceFileName ≠
          (SolverTask.construct libTmp sessionW mainSettingsW settingsW 7 "b").1.convergenceFileName
       ∧ (SolverTask.construct libTmp sessionW mainSettingsW settingsW 7 "a").1.monitoringFileName ≠
          (SolverTask.construct libTmp sessionW mainSettingsW settingsW 7 "b").1.monitoringFileName) := by
  intro h
  exact h.1 rfl

/-- C8, amended: for two tasks constructed on the same model with different identifiers, the
log, convergence and monitoring paths are `buildTmpFileName` of the kind and the task
identifier, and differ between the tasks as soon as `buildTmpFileName` gives different names
for different identifiers.  The model file is not derived from the identifier: both tasks have
the same `modelFileName`, pass the same `--file=` argument, and every `ModelIO::save` and
`ModelIO::update` of their runs is on the same path. -/
theorem two_tasks_on_one_model (lib : Library) (session : Session)
    (ms : MainSettings) (settings : ApplicationSettings) (modelID : Nat) (id1 id2 : String)
    (env1 env2 : Env) (hid : id1 ≠ id2)
    (hinj : ∀ kind, Function.Injective (lib.buildTmpFileName (session.getModel modelID) kind)) :
    ((SolverTask.construct lib session ms settings modelID id1).1.logFileName ≠
        (SolverTask.construct lib session ms settings modelID id2).1.logFileName
      ∧ (SolverTask.construct lib session ms settings modelID id1).1.convergenceFileName ≠
        (SolverTask.construct lib session ms settings modelID id2).1.convergenceFileName
      ∧ (SolverTask.construct lib session ms settings modelID id1).1.monitoringFileName ≠
        (SolverTask.construct lib session ms settings modelID id2).1.monitoringFileName)
    ∧ (SolverTask.construct lib session ms settings modelID id1).1.modelFileName =
        (SolverTask.construct lib session ms settings modelID id2).1.modelFileName
    ∧ (SolverTask.construct lib session ms settings modelID id1).1.solverArguments.head? =
        (SolverTask.construct lib session ms settings modelID id2).1.solverArguments.head?
    ∧ (∀ path1 path2,
        (Event.save path1 ∈
            ((SolverTask.construct lib session ms settings modelID id1).1.run
              lib session env1).trace
          ∨ Event.update path1 ∈
            ((SolverTask.construct lib session ms settings modelID id1).1.run
              lib session env1).trace) →
        (Event.save path2 ∈
            ((SolverTask.construct lib session ms settings modelID id2).1.run
              lib session env2).trace
          ∨ Event.update path2 ∈
            ((SolverTask.construct lib session ms settings modelID id2).1.run
              lib session env2).trace) →
        path1 = path2) := by
  refine ⟨⟨?_, ?_, ?_⟩, rfl, rfl, ?_⟩
  · exact fun h => hid (hinj "log" h)
  · exact fun h => hid (hinj "cvg" h)
  · exact fun h => hid (hinj "mon" h)
  · intro path1 path2 h1 h2
    rw [serialization_path_of_run lib session env1 _ path1 h1,
      serialization_path_of_run lib session env2 _ path2 h2]
    rfl

set_option maxRecDepth 100000 in
/-- Witness of the amended C8: with the names of `libTmp`, the tasks `a` and `b` on the model
7 have different log files and the same model file, which both runs save. -/
theorem two_tasks_on_one_model_witness :
    ("a" : String) ≠ "b"
    ∧ (SolverTask.construct libTmp sessionW mainSettingsW settingsW 7 "a").1.logFileName ≠
        (SolverTask.construct libTmp sessionW mainSettingsW settingsW 7 "b").1.logFileName
    ∧ (SolverTask.construct libTmp sessionW mainSettingsW settingsW 7 "a").1.modelFileName =
        (SolverTask.construct libTmp sessionW mainSettingsW settingsW 7 "b").1.modelFileName
    ∧ Event.save "m.model" ∈
        ((SolverTask.construct libTmp sessionW mainSettingsW settingsW 7 "a").1.run
          libTmp sessionW (envExit 0)).trace
    ∧ Event.save "m.model" ∈
        ((SolverTask.construct libTmp sessionW mainSettingsW settingsW 7 "b").1.run
          libTmp sessionW (envExit 3)).trace :=
  have h := two_tasks_on_one_model libTmp sessionW mainSettingsW settingsW 7 "a" "b"
    (envExit 0) (envExit 3) (by decide)
    (fun kind => libTmp_buildTmpFileName_injective (sessionW.getModel 7) kind)
  ⟨by decide, h.1.1, h.2.1, by decide, by decide⟩

/-! ## The blocking signal (C9) -/

set_option maxRecDepth 100000 in
/-- C9, as stated, fails, in two ways.  In the run of the concrete task whose checkpoint call
throws, no blocking value is emitted: the sequence is neither `[true, false]` nor
`[true, false, true, false]` and has no last value.  In the run whose save throws,
`isBlocking(false)` is not what comes right after the save call: the error line of the `catch`
is logged first. -/
theorem blocking_claim_fails :
    ¬ ((blockingValues (taskW.run libW sessionW (envStoreError ⟨"no such model"⟩)).trace
            = [true, false]
          ∨ blockingValues (taskW.run libW sessionW (envStoreError ⟨"no such model"⟩)).trace
            = [true, false, true, false])
        ∧ (blockingValues
            (taskW.run libW sessionW (envStoreError ⟨"no such model"⟩)).trace).getLast?
          = some false)
    ∧ ¬ (∀ pre path post,
          (taskW.run libW sessionW (envSaveError ⟨"disk full"⟩)).trace
            = pre ++ Event.save path :: post →
          post.head? = some (Event.isBlocking false)) := by
  constructor
  · decide
  · intro h
    have h2 := h ((taskW.run libW sessionW (envSaveError ⟨"disk full"⟩)).trace.take 4) "m.model"
      ((taskW.run libW sessionW (envSaveError ⟨"disk full"⟩)).trace.drop 5) (by decide)
    exact absurd h2 (by decide)

/-- C9, amended: a run whose checkpoint call throws emits no blocking value.  In a run whose
checkpoint call returns, whatever the outcomes of save, solver and update: the values of the
blocking signal are `[true, false]` or `[true, false, true, false]`, the latter exactly when
the update is reached, so the last value emitted is `false`; each save or update call comes
right after `isBlocking(true)` and is followed by `isBlocking(false)`, at once when the call
returns and right after the error line of the call when it throws; each `isBlocking(true)` is
followed at once by a save or update call; and blocking is off at every start of, and wait
for, the process. -/
theorem blocking_brackets_serialization_once_checkpointed (lib : Library) (session : Session)
    (env : Env) (t : SolverTask) :
    (∀ error, env.storeCurentModelVersion = Except.error error →
      blockingValues (t.run lib session env).trace = [])
    ∧ (env.storeCurentModelVersion = Except.ok () →
      (blockingValues (t.run lib session env).trace = [true, false]
        ∨ blockingValues (t.run lib session env).trace = [true, false, true, false])
      ∧ (blockingValues (t.run lib session env).trace = [true, false, true, false]
          ↔ env.save = Except.ok () ∧ env.waitForFinished = true ∧ env.exitCode = 0)
      ∧ (blockingValues (t.run lib session env).trace).getLast? = some false
      ∧ Brackets env (t.run lib session env).trace
      ∧ BlockingOffAtProcessCalls (t.run lib session env).trace) := by
  constructor
  · intro error hstore
    rw [run_of_store_error lib session env t error hstore]
    simp [blockingValues, Event.blockingValue, SolverTask.traceCatch]
  intro hstore
  refine run_by_cases lib session env t
    (fun r => (blockingValues r.trace = [true, false]
        ∨ blockingValues r.trace = [true, false, true, false])
      ∧ (blockingValues r.trace = [true, false, true, false]
          ↔ env.save = Except.ok () ∧ env.waitForFinished = true ∧ env.exitCode = 0)
      ∧ (blockingValues r.trace).getLast? = some false
      ∧ Brackets env r.trace
      ∧ BlockingOffAtProcessCalls r.trace)
    ?_ ?_ ?_ ?_ ?_
  · intro error h
    rw [hstore] at h
    cases h
  · intro error _ hsave
    refine ⟨?_, ?_, ?_, brackets_of_bracketsFrom _ _ ?_, blockingOff_of_blockingOffFrom _ ?_⟩
    all_goals
      simp [hsave, blockingValues, Event.blockingValue, bracketsFrom, blockingOffFrom,
        expectedAfter, afterSerialization, Event.isSerialization, Event.isProcessCall,
        SolverTask.traceCatch, SolverTask.traceToSave]
  · intro _ hsave hfail
    have hnot : ¬ (env.waitForFinished = true ∧ env.exitCode = 0) := by
      rintro ⟨hw, hc⟩
      rcases hfail with h | h
      · rw [hw] at h
        cases h
      · exact h hc
    refine ⟨?_, ?_, ?_, brackets_of_bracketsFrom _ _ ?_, blockingOff_of_blockingOffFrom _ ?_⟩
    all_goals
      simp [hsave, hnot, blockingValues, Event.blockingValue, bracketsFrom, blockingOffFrom,
        expectedAfter, afterSerialization, Event.isSerialization, Event.isProcessCall,
        SolverTask.traceCatch, SolverTask.traceToSave, SolverTask.traceToWait]
  · intro error _ hsave hwait hexit hupdate
    refine ⟨?_, ?_, ?_, brackets_of_bracketsFrom _ _ ?_, blockingOff_of_blockingOffFrom _ ?_⟩
    all_goals
      simp [hsave, hwait, hexit, hupdate, blockingValues, Event.blockingValue, bracketsFrom,
        blockingOffFrom, expectedAfter, afterSerialization, Event.isSerialization,
        Event.isProcessCall, SolverTask.traceCatch, SolverTask.traceToSave,
        SolverTask.traceToWait, SolverTask.traceToUpdate]
  · intro _ hsave hwait hexit hupdate
    refine ⟨?_, ?_, ?_, brackets_of_bracketsFrom _ _ ?_, blockingOff_of_blockingOffFrom _ ?_⟩
    all_goals
      simp [hsave, hwait, hexit, hupdate, blockingValues, Event.blockingValue, bracketsFrom,
        blockingOffFrom, expectedAfter, afterSerialization, Event.isSerialization,
        Event.isProcessCall, SolverTask.traceToSave, SolverTask.traceToWait,
        SolverTask.traceToUpdate]

/-- Witness of the amended C9: the run of the concrete task where everything succeeds emits
`true, false, true, false` with the brackets in place, the one whose save throws emits
`true, false`, and the one whose checkpoint throws emits nothing. -/
theorem blocking_brackets_serialization_once_checkpointed_witness :
    (envExit 0).storeCurentModelVersion = Except.ok ()
    ∧ blockingValues (taskW.run libW sessionW (envExit 0)).trace = [true, false, true, false]
    ∧ Brackets (envExit 0) (taskW.run libW sessionW (envExit 0)).trace
    ∧ BlockingOffAtProcessCalls (taskW.run libW sessionW (envExit 0)).trace
    ∧ blockingValues (taskW.run libW sessionW (envSaveError ⟨"disk full"⟩)).trace
        = [true, false]
    ∧ Brackets (envSaveError ⟨"disk full"⟩)
        (taskW.run libW sessionW (envSaveError ⟨"disk full"⟩)).trace
    ∧ blockingValues (taskW.run libW sessionW (envStoreError ⟨"no such model"⟩)).trace = [] :=
  have h := (blocking_brackets_serialization_once_checkpointed libW sessionW (envExit 0)
    taskW).2 rfl
  have h2 := (blocking_brackets_serialization_once_checkpointed libW sessionW
    (envSaveError ⟨"disk full"⟩) taskW).2 rfl
  have h3 := (blocking_brackets_serialization_once_checkpointed libW sessionW
    (envStoreError ⟨"no such model"⟩) taskW).1 ⟨"no such model"⟩ rfl
  ⟨rfl, h.2.1.mpr ⟨rfl, rfl, rfl⟩, h.2.2.2.1, h.2.2.2.2,
    h2.1.resolve_right (fun hc => by
      have h4 := (h2.2.1.mp hc).1
      cases h4),
    h2.2.2.2.1, h3⟩

/-! ## The license step of the constructor (C10) -/

/-- C10: the license step is advisory.  Whatever `RLicense::read` does (`read` below stands
for any replacement of it) the constructor builds the same task: same paths, same argument
list.  All it logs comes from the license step: when the file was read, one warning for each
problem type whose record does not validate, in the order of the types (none when all
validate); when reading threw, the single error line. -/
theorem license_validation_is_advisory (lib : Library) (session : Session)
    (ms : MainSettings) (settings : ApplicationSettings) (modelID : Nat) (generated : String)
    (read : String → Except RError RLicense) :
    (SolverTask.construct { lib with read := read } session ms settings modelID generated).1 =
      (SolverTask.construct lib session ms settings modelID generated).1
    ∧ (∀ license, lib.read ms.findModuleLicenseFileName = Except.ok license →
        (SolverTask.construct lib session ms settings modelID generated).2 =
          ((lib.getTypes (session.getModel modelID).problemTypeMask).filter (fun p =>
              !license.validateRecord (lib.getId p) ms.getApplicationSettings.rangeAccount
                ms.getApplicationSettings.rangePassword)).map
            (fun p => Event.log LogLevel.warning
              ("Missing license for \x27" ++ lib.getName p ++ "\x27 (product-id: "
                ++ lib.getId p ++ ")\n")))
    ∧ (∀ rError, lib.read ms.findModuleLicenseFileName = Except.error rError →
        (SolverTask.construct lib session ms settings modelID generated).2 =
          [Event.log LogLevel.error
            ("Failed to validate module license file \x27" ++ ms.findModuleLicenseFileName
              ++ "\x27. " ++ rError.message ++ "\n")]) := by
  refine ⟨by simp [SolverTask.construct], ?_, ?_⟩
  · intro license hread
    simp [SolverTask.construct, validateLicense, hread, validateRecords_eq_map_filter]
  · intro rError hread
    simp [SolverTask.construct, validateLicense, hread]

set_option maxRecDepth 100000 in
/-- Witness of C10: with the license of `libW`, which validates the product `1` only, the
constructor logs the warning for the product `2`; with an unreadable license file it logs
the error line; the task is the same in both cases. -/
theorem license_validation_is_advisory_witness :
    (SolverTask.construct libNoLicense sessionW mainSettingsW settingsW 7 "abc123").1 = taskW
    ∧ (SolverTask.construct libW sessionW mainSettingsW settingsW 7 "abc123").2 =
        [Event.log LogLevel.warning "Missing license for \x27problem2\x27 (product-id: 2)\n"]
    ∧ (SolverTask.construct libNoLicense sessionW mainSettingsW settingsW 7 "abc123").2 =
        [Event.log LogLevel.error
          "Failed to validate module license file \x27lic.key\x27. cannot open file\n"] :=
  ⟨(license_validation_is_advisory libW sessionW mainSettingsW settingsW 7 "abc123"
      (fun _ => Except.error ⟨"cannot open file"⟩)).1,
   ((license_validation_is_advisory libW sessionW mainSettingsW settingsW 7 "abc123"
      libW.read).2.1 ⟨fun id _ _ => id == "1"⟩ rfl).trans (by decide),
   ((license_validation_is_advisory libNoLicense sessionW mainSettingsW settingsW 7 "abc123"
      libW.read).2.2 ⟨"cannot open file"⟩ rfl).trans (by decide)⟩

end Range
